import Mathlib

/-!
Verification of the moderation / soft-delete and notification-fanout core of
the `community` forum application.

The Python source (Django) is shallowly embedded: model rows become Lean
structures, timestamps are `Int` seconds, ORM writes become explicit state
passing, and Django model-instance comparison (`!=` on model objects, which
compares primary keys) becomes comparison of `id` fields.  Fallible request
handlers return a `ViewResult`.
-/

/-- A Django auth user (the fields this core reads: pk, username, the staff
flag checked by `staff_required`, and `is_authenticated`). -/
structure User where
  id : Nat
  username : String
  is_staff : Bool
  is_authenticated : Bool
deriving DecidableEq, Repr

/-- `community.models.Post` (scalar fields; `category`/`tags`/`attachment`
are kept as ids / path so the field set matches the model). -/
structure Post where
  id : Nat
  title : String
  content : String
  author : User
  category : Option Nat := none
  tags : List Nat := []
  attachment : Option String := none
  created_at : Int
  updated_at : Int := 0
  views : Nat := 0
  is_pinned : Bool := false
  is_active : Bool := true
  deleted_at : Option Int := none
  deleted_by : Option User := none
  delete_reason : String := ""
deriving DecidableEq, Repr

/-- `community.models.Comment`. -/
structure Comment where
  id : Nat
  post_id : Nat
  author : User
  content : String
  created_at : Int
  parent : Option Nat := none
  is_active : Bool := true
  deleted_at : Option Int := none
  deleted_by : Option User := none
  delete_reason : String := ""
deriving DecidableEq, Repr

/-- `community.models.UserProfile` (the ban-related slice). -/
structure UserProfile where
  user : User
  is_banned : Bool := false
  banned_at : Option Int := none
  banned_by : Option User := none
  ban_reason : String := ""
  ban_expires_at : Option Int := none
deriving DecidableEq, Repr

/-- `community.models.Notification`. -/
structure Notification where
  id : Nat
  recipient : User
  sender : User
  notification_type : String
  post : Option Nat := none
  comment : Option Nat := none
  message : String
  is_read : Bool := false
  created_at : Int
deriving DecidableEq, Repr

/-- `community.models.Like` (row of the Like table; `unique_together
['user', 'post']`). -/
structure Like where
  user_id : Nat
  post_id : Nat
  created_at : Int
deriving DecidableEq, Repr

/-- `community.models.Follow` (row of the Follow table). -/
structure Follow where
  follower_id : Nat
  following_id : Nat
deriving DecidableEq, Repr

/-- The `NOTIFICATION_TYPES` choices declared on the Notification model. -/
def Notification.NOTIFICATION_TYPES : List String := ["comment", "like", "follow"]

/-- `UserProfile.is_permanently_banned`. -/
def UserProfile.is_permanently_banned (p : UserProfile) : Bool :=
  p.is_banned && p.ban_expires_at.isNone

/-- `UserProfile.is_temporarily_banned` (reads the clock, passed as `now`). -/
def UserProfile.is_temporarily_banned (p : UserProfile) (now : Int) : Bool :=
  if !p.is_banned || p.ban_expires_at.isNone then false
  else
    match p.ban_expires_at with
    | none => false
    | some exp => decide (now < exp)

/-- `UserProfile.is_currently_banned` (reads the clock, passed as `now`). -/
def UserProfile.is_currently_banned (p : UserProfile) (now : Int) : Bool :=
  if !p.is_banned then false
  else
    match p.ban_expires_at with
    | none => true
    | some exp => decide (now < exp)

/-- Modelled from the spec: the derived ban-status read
`effective_banned(profile, now) = is_banned AND (ban_expires_at IS NULL OR
now < ban_expires_at)`, to be compared with the code's
`is_currently_banned`. -/
def effective_banned (p : UserProfile) (now : Int) : Bool :=
  p.is_banned && (p.ban_expires_at.elim true (fun exp => decide (now < exp)))

/-- Database state of the Notification table, with the autoincrement pk. -/
structure NotifState where
  notifications : List Notification
  next_id : Nat
deriving DecidableEq, Repr

/-- `channel_layer.group_send` on the websocket channel layer:
fails when no channel layer / live subscription is available
(`channel_ok = false` models every transport failure). -/
def group_send (channel_ok : Bool) (group : String) (message : String)
    (notification_id : Nat) (ntype : String) : Except String Unit :=
  if channel_ok then Except.ok () else Except.error "channel layer unavailable"

/-- Outcome of `create_notification`: the new table state, the created row
(if any), and whether the best-effort real-time push was delivered. -/
structure NotifyResult where
  state : NotifState
  created : Option Notification
  pushed : Bool
deriving DecidableEq, Repr

/-- `community.utils.helpers.create_notification`: no-op when
`sender != recipient` fails (Django compares model pks); otherwise persists
one row, then attempts the push inside `try: ... except Exception: pass`. -/
def create_notification (st : NotifState) (sender recipient : User)
    (ntype message : String) (post comment : Option Nat) (now : Int)
    (channel_ok : Bool) : NotifyResult :=
  if sender.id ≠ recipient.id then
    let n : Notification :=
      { id := st.next_id, recipient := recipient, sender := sender,
        notification_type := ntype, post := post, comment := comment,
        message := message, is_read := false, created_at := now }
    let st' : NotifState :=
      { notifications := st.notifications ++ [n], next_id := st.next_id + 1 }
    let pushed :=
      match group_send channel_ok ("notifications_" ++ toString recipient.id)
          message n.id ntype with
      | Except.ok _ => true
      | Except.error _ => false
    { state := st', created := some n, pushed := pushed }
  else
    { state := st, created := none, pushed := false }

/-- `community.utils.helpers.can_delete_within_time_limit`
(`timezone.now() - created_at <= timedelta(minutes=limit)`; seconds). -/
def can_delete_within_time_limit (now created_at : Int)
    (time_limit_minutes : Int) : Bool :=
  decide (now - created_at ≤ time_limit_minutes * 60)

/-- Outcome of a request handler: 403 from a decorator, a re-rendered form
with a validation error, or success. -/
inductive ViewResult (α : Type) where
  | forbidden
  | invalid (err : String)
  | ok (a : α)
deriving DecidableEq, Repr

/-- Outcome of the self-service delete views. -/
inductive DeleteOutcome where
  | forbidden
  | window_expired (msg : String)
  | confirm_page
  | deleted
deriving DecidableEq, Repr

/-- `community.views.post_delete` (author_required; 5-minute window check;
hard `post.delete()` on POST). Returns the outcome and the Post table. -/
def post_delete (db : List Post) (post : Post) (actor : User) (now : Int)
    (is_post_method : Bool) : DeleteOutcome × List Post :=
  if post.author.id ≠ actor.id then (DeleteOutcome.forbidden, db)
  else if !can_delete_within_time_limit now post.created_at 5 then
    (DeleteOutcome.window_expired "帖子发布超过5分钟，无法删除", db)
  else if is_post_method then
    (DeleteOutcome.deleted, db.filter (fun p => p.id ≠ post.id))
  else
    (DeleteOutcome.confirm_page, db)

/-- `community.views.comment_delete` (author_required; hard delete with no
time-window check and no method check). -/
def comment_delete (db : List Comment) (c : Comment) (actor : User) :
    DeleteOutcome × List Comment :=
  if c.author.id ≠ actor.id then (DeleteOutcome.forbidden, db)
  else (DeleteOutcome.deleted, db.filter (fun x => x.id ≠ c.id))

/-- Python `str.strip()` as Django CharField cleaning applies it: drop
leading and trailing whitespace (list-based so it evaluates in proofs). -/
def pyStrip (s : String) : String :=
  String.mk
    (((s.data.dropWhile Char.isWhitespace).reverse.dropWhile
      Char.isWhitespace).reverse)

/-- `community.admin_forms.DeletePostForm` field cleaning: `delete_reason`
is a required CharField with `max_length=500` (whitespace stripped). -/
def DeletePostForm.clean (delete_reason : String) : Except String String :=
  let v := pyStrip delete_reason
  if v = "" then Except.error "这个字段是必填项。"
  else if v.length > 500 then Except.error "max_length 500 exceeded"
  else Except.ok v

/-- `community.admin_forms.DeleteCommentForm` field cleaning (identical
shape to DeletePostForm in the source). -/
def DeleteCommentForm.clean (delete_reason : String) : Except String String :=
  let v := pyStrip delete_reason
  if v = "" then Except.error "这个字段是必填项。"
  else if v.length > 500 then Except.error "max_length 500 exceeded"
  else Except.ok v

/-- `community.views.admin_delete_post` (staff_required; POST path with the
bound DeletePostForm): soft-deletes the post and notifies its author. -/
def admin_delete_post (st : NotifState) (post : Post) (actor : User)
    (delete_reason : String) (now : Int) (channel_ok : Bool) :
    ViewResult (Post × NotifyResult) :=
  if !actor.is_staff then ViewResult.forbidden
  else
    match DeletePostForm.clean delete_reason with
    | Except.error e => ViewResult.invalid e
    | Except.ok reason =>
        let post' := { post with
          is_active := false
          deleted_at := some now
          deleted_by := some actor
          delete_reason := reason }
        let msg := "您的帖子 \"" ++ post'.title ++ "\" 已被管理员删除，原因：" ++
                   post'.delete_reason
        ViewResult.ok (post',
          create_notification st actor post.author "comment" msg
            (some post.id) none now channel_ok)

/-- `community.views.admin_delete_comment` (staff_required; POST path). -/
def admin_delete_comment (st : NotifState) (c : Comment) (actor : User)
    (delete_reason : String) (now : Int) (channel_ok : Bool) :
    ViewResult (Comment × NotifyResult) :=
  if !actor.is_staff then ViewResult.forbidden
  else
    match DeleteCommentForm.clean delete_reason with
    | Except.error e => ViewResult.invalid e
    | Except.ok reason =>
        let c' := { c with
          is_active := false
          deleted_at := some now
          deleted_by := some actor
          delete_reason := reason }
        let msg := "您的评论已被管理员删除，原因：" ++ c'.delete_reason
        ViewResult.ok (c',
          create_notification st actor c.author "comment" msg
            none (some c.id) now channel_ok)

/-- The `ban_duration` ChoiceField choices of BanUserForm (submitted as
strings; an unchosen optional select posts the empty string). -/
def BanUserForm.duration_choices : List String := ["1", "3", "7", "30", "90"]

/-- Cleaned data of a valid BanUserForm. -/
structure BanCleaned where
  ban_type : String
  ban_duration : String
  ban_reason : String
deriving DecidableEq, Repr

/-- `community.admin_forms.BanUserForm` validation: field-level choice and
CharField checks, then the form's `clean()` which rejects a temporary ban
without a duration. -/
def BanUserForm.validate (ban_type ban_duration ban_reason : String) :
    Except String BanCleaned :=
  if !(ban_type = "temporary" || ban_type = "permanent") then
    Except.error "ban_type: 请选择一个有效的选项"
  else if ban_duration ≠ "" && !(BanUserForm.duration_choices.contains ban_duration) then
    Except.error "ban_duration: 请选择一个有效的选项"
  else
    let reason := pyStrip ban_reason
    if reason = "" then Except.error "ban_reason: 这个字段是必填项。"
    else if reason.length > 500 then Except.error "ban_reason: max_length 500 exceeded"
    else if ban_type = "temporary" && ban_duration = "" then
      Except.error "临时封禁必须选择封禁时长"
    else Except.ok { ban_type := ban_type, ban_duration := ban_duration,
                     ban_reason := reason }

/-- `BanUserForm.get_ban_expires_at`: `None` for a permanent ban, otherwise
`timezone.now() + timedelta(days=int(ban_duration))` (days in seconds). -/
def BanUserForm.get_ban_expires_at (c : BanCleaned) (now : Int) : Option Int :=
  if c.ban_type = "permanent" then none
  else if c.ban_duration ≠ "" then
    some (now + ((c.ban_duration.toNat?.getD 0 : Nat) : Int) * 86400)
  else none

/-- `community.views.admin_ban_user` (staff_required; POST path): sets the
ban fields, computes expiry via the form, and notifies the banned user. -/
def admin_ban_user (st : NotifState) (profile : UserProfile) (actor : User)
    (ban_type ban_duration ban_reason : String) (now : Int)
    (channel_ok : Bool) : ViewResult (UserProfile × NotifyResult) :=
  if !actor.is_staff then ViewResult.forbidden
  else
    match BanUserForm.validate ban_type ban_duration ban_reason with
    | Except.error e => ViewResult.invalid e
    | Except.ok c =>
        let profile' := { profile with
          is_banned := true
          banned_at := some now
          banned_by := some actor
          ban_reason := c.ban_reason
          ban_expires_at := BanUserForm.get_ban_expires_at c now }
        let ban_message := "您的账号已被" ++ c.ban_type ++
          (if c.ban_duration ≠ "" then "，时长：" ++ c.ban_duration ++ "天" else "") ++
          "，原因：" ++ profile'.ban_reason
        ViewResult.ok (profile',
          create_notification st actor profile.user "comment" ban_message
            none none now channel_ok)

/-- `community.admin_forms.UnbanUserForm` validation: `unban_reason` is an
optional CharField with `max_length=500`. -/
def UnbanUserForm.validate (unban_reason : String) : Except String String :=
  let r := pyStrip unban_reason
  if r.length > 500 then Except.error "unban_reason: max_length 500 exceeded"
  else Except.ok r

/-- `community.views.admin_unban_user` (staff_required; POST path): clears
`is_banned`, `ban_expires_at` and `ban_reason` (and nothing else), then
notifies the user. -/
def admin_unban_user (st : NotifState) (profile : UserProfile) (actor : User)
    (unban_reason : String) (now : Int) (channel_ok : Bool) :
    ViewResult (UserProfile × NotifyResult) :=
  if !actor.is_staff then ViewResult.forbidden
  else
    match UnbanUserForm.validate unban_reason with
    | Except.error e => ViewResult.invalid e
    | Except.ok r =>
        let profile' := { profile with
          is_banned := false
          ban_expires_at := none
          ban_reason := "" }
        let unban_message := "您的账号已被解封" ++
          (if r ≠ "" then "，原因：" ++ r else "")
        ViewResult.ok (profile',
          create_notification st actor profile.user "comment" unban_message
            none none now channel_ok)

/-- Whether a Like row has the given (user, post) key. -/
def Like.hasKey (l : Like) (uid pid : Nat) : Bool :=
  l.user_id == uid && l.post_id == pid

/-- Number of Like rows for a (user, post) pair. -/
def likeCount (likes : List Like) (uid pid : Nat) : Nat :=
  (likes.filter (fun l => l.hasKey uid pid)).length

/-- `like.delete()` on the row returned by `get_or_create`: removes the
first row with the (user, post) key. -/
def removeFirstLike (likes : List Like) (uid pid : Nat) : List Like :=
  match likes with
  | [] => []
  | l :: rest =>
      if l.hasKey uid pid then rest else l :: removeFirstLike rest uid pid

/-- `community.views.like_post` (POST path): `Like.objects.get_or_create`
keyed on (user, post); if the row existed, delete it (toggle off); if it
was created, notify the post author unless the liker is the author. -/
def like_post (likes : List Like) (st : NotifState) (actor : User)
    (post : Post) (now : Int) (channel_ok : Bool) :
    List Like × NotifState :=
  match likes.find? (fun l => l.hasKey actor.id post.id) with
  | some _ =>
      (removeFirstLike likes actor.id post.id, st)
  | none =>
      let likes' := likes ++
        [{ user_id := actor.id, post_id := post.id, created_at := now }]
      let st' :=
        if post.author.id ≠ actor.id then
          (create_notification st actor post.author "like"
            (actor.username ++ " 点赞了你的帖子 \"" ++ post.title ++ "\"")
            (some post.id) none now channel_ok).state
        else st
      (likes', st')

/-- `community.views.follow_user` (POST path): rejects self-follow, then
`Follow.objects.get_or_create`; toggles off if existing, otherwise creates
the follow and notifies the followed user. -/
def follow_user (follows : List Follow) (st : NotifState)
    (actor target : User) (now : Int) (channel_ok : Bool) :
    List Follow × NotifState :=
  if actor.id = target.id then (follows, st)
  else
    match follows.find? (fun f =>
        f.follower_id == actor.id && f.following_id == target.id) with
    | some _ =>
        (follows.filter (fun f =>
          !(f.follower_id == actor.id && f.following_id == target.id)), st)
    | none =>
        (follows ++ [{ follower_id := actor.id, following_id := target.id }],
         (create_notification st actor target "follow"
           (actor.username ++ " 关注了你") none none now channel_ok).state)

/-- The comment-submission branch of `community.views.post_detail`: saves
the comment and notifies the post author unless the commenter is the
author. -/
def post_detail_add_comment (comments : List Comment) (st : NotifState)
    (post : Post) (actor : User) (content : String) (next_cid : Nat)
    (now : Int) (channel_ok : Bool) : List Comment × NotifState :=
  let c : Comment := { id := next_cid, post_id := post.id, author := actor,
                       content := content, created_at := now }
  let st' :=
    if post.author.id ≠ actor.id then
      (create_notification st actor post.author "comment"
        (actor.username ++ " 评论了你的帖子 \"" ++ post.title ++ "\"")
        (some post.id) (some c.id) now channel_ok).state
    else st
  (comments ++ [c], st')

/-- A scalar value an ORM field lookup can compare against. -/
inductive FieldValue where
  | vstr (s : String)
  | vint (n : Int)
  | vbool (b : Bool)
  | vnull
deriving DecidableEq, Repr

/-- The field names declared on the Post model (from `community.models`);
Django resolves filter keywords against this set and raises a FieldError
for any other keyword. -/
def Post.fieldNames : List String :=
  ["id", "title", "content", "author", "category", "tags", "attachment",
   "created_at", "updated_at", "views", "is_pinned", "is_active",
   "deleted_at", "deleted_by", "delete_reason"]

/-- Scalar view of a Post field (relational fields by pk; the many-to-many
`tags` has no scalar value). -/
def Post.getField (p : Post) (field : String) : FieldValue :=
  if field = "id" then FieldValue.vint (p.id : Int)
  else if field = "title" then FieldValue.vstr p.title
  else if field = "content" then FieldValue.vstr p.content
  else if field = "author" then FieldValue.vint (p.author.id : Int)
  else if field = "category" then
    (p.category.elim FieldValue.vnull (fun c => FieldValue.vint (c : Int)))
  else if field = "attachment" then
    (p.attachment.elim FieldValue.vnull FieldValue.vstr)
  else if field = "created_at" then FieldValue.vint p.created_at
  else if field = "updated_at" then FieldValue.vint p.updated_at
  else if field = "views" then FieldValue.vint (p.views : Int)
  else if field = "is_pinned" then FieldValue.vbool p.is_pinned
  else if field = "is_active" then FieldValue.vbool p.is_active
  else if field = "deleted_at" then
    (p.deleted_at.elim FieldValue.vnull FieldValue.vint)
  else if field = "deleted_by" then
    (p.deleted_by.elim FieldValue.vnull (fun u => FieldValue.vint (u.id : Int)))
  else if field = "delete_reason" then FieldValue.vstr p.delete_reason
  else FieldValue.vnull

/-- `Post.objects.filter(field=value)`: raises a FieldError when the
keyword does not name a Post field, otherwise filters the table. -/
def Post.objects_filter (db : List Post) (field : String)
    (value : FieldValue) : Except String (List Post) :=
  if Post.fieldNames.contains field then
    Except.ok (db.filter (fun p => p.getField field == value))
  else
    Except.error ("Cannot resolve keyword " ++ field ++ " into field")

/-- `community.search_indexes.PostIndex.index_queryset`:
`Post.objects.filter(status='approved')` as written in the source. -/
def PostIndex.index_queryset (db : List Post) : Except String (List Post) :=
  Post.objects_filter db "status" (FieldValue.vstr "approved")

/-- Modelled from the spec: the indexable predicate the search index is
required to consume, equivalent to `is_active`
(spec §6: consumes only active content). -/
def spec_index_queryset (db : List Post) : Except String (List Post) :=
  Except.ok (db.filter (fun p => p.is_active))

/-- Bulk invariant: every persisted notification has a declared type. -/
def notifTypesOk (st : NotifState) : Bool :=
  st.notifications.all (fun n =>
    Notification.NOTIFICATION_TYPES.contains n.notification_type)

/-! Concrete example rows used by witnesses and counterexamples. -/

/-- Example staff user. -/
def staffU : User :=
  { id := 1, username := "alice", is_staff := true, is_authenticated := true }

/-- Example ordinary user. -/
def plainU : User :=
  { id := 2, username := "bob", is_staff := false, is_authenticated := true }

/-- Empty Notification table. -/
def st0 : NotifState := { notifications := [], next_id := 1 }

/-- Example post authored by the ordinary user. -/
def postByPlain : Post :=
  { id := 10, title := "hello", content := "world", author := plainU,
    created_at := 0 }

/-- Example post authored by the staff user. -/
def postByStaff : Post :=
  { id := 11, title := "mine", content := "text", author := staffU,
    created_at := 0 }

/-- Example comment authored by the ordinary user. -/
def commentByPlain : Comment :=
  { id := 20, post_id := 10, author := plainU, content := "a comment",
    created_at := 0 }

/-- Example profile with an expired temporary ban. -/
def pExpired : UserProfile :=
  { user := plainU, is_banned := true, banned_at := some 0,
    banned_by := some staffU, ban_reason := "spam",
    ban_expires_at := some 100 }

/-- Example permanently banned profile. -/
def pPerm : UserProfile :=
  { user := plainU, is_banned := true, banned_at := some 0,
    banned_by := some staffU, ban_reason := "spam", ban_expires_at := none }

/-- C2: the derived ban-status read is a pure function of the stored
fields: it equals the spec's `effective_banned` formula, is false whenever
`is_banned` is false, true for permanent bans (null expiry) at any time,
and false for temporary bans once `now` reaches `ban_expires_at`, even
while the stored `is_banned` flag remains true. -/
theorem c2_ban_status_pure (p : UserProfile) (now : Int) :
    p.is_currently_banned now = effective_banned p now ∧
    (p.is_banned = false → p.is_currently_banned now = false) ∧
    (p.is_banned = true → p.ban_expires_at = none →
      p.is_currently_banned now = true) ∧
    (∀ exp, p.ban_expires_at = some exp → exp ≤ now →
      p.is_currently_banned now = false) := by
  rcases p with ⟨u, ib, ba, bb, br, be⟩
  cases ib <;> cases be <;>
    simp_all [UserProfile.is_currently_banned, effective_banned]

/-- C2 witness: an expired temporary ban reads not-banned while the stored
flag is still true; a permanent ban reads banned far in the future. -/
theorem c2_witness :
    pExpired.is_currently_banned 100 = false ∧ pExpired.is_banned = true ∧
    pPerm.is_currently_banned 999999 = true :=
  ⟨(c2_ban_status_pure pExpired 100).2.2.2 100 rfl (by decide), rfl,
   (c2_ban_status_pure pPerm 999999).2.2.1 rfl rfl⟩

/-- C3: notifying yourself is a no-op (no row persisted, no push), and for
distinct sender and recipient exactly one Notification row is appended. -/
theorem c3_self_notify_noop (st : NotifState) (x : User) (ty msg : String)
    (post comment : Option Nat) (now : Int) (ch : Bool) :
    (create_notification st x x ty msg post comment now ch).state = st ∧
    (create_notification st x x ty msg post comment now ch).created = none ∧
    (create_notification st x x ty msg post comment now ch).pushed = false ∧
    (∀ sender recipient : User, sender.id ≠ recipient.id →
      ∃ n, (create_notification st sender recipient ty msg post comment
        now ch).state.notifications = st.notifications ++ [n]) := by
  refine ⟨by simp [create_notification], by simp [create_notification],
    by simp [create_notification], ?_⟩
  intro sender recipient h
  simp [create_notification, h]

/-- C3 witness at concrete users: self-notify persists nothing; a notify
between distinct users appends one row. -/
theorem c3_witness :
    (create_notification st0 staffU staffU "like" "m" none none 0
      true).state = st0 ∧
    staffU.id ≠ plainU.id ∧
    ∃ n, (create_notification st0 staffU plainU "like" "m" none none 0
      true).state.notifications = st0.notifications ++ [n] :=
  ⟨(c3_self_notify_noop st0 staffU "like" "m" none none 0 true).1,
   by decide,
   (c3_self_notify_noop st0 staffU "like" "m" none none 0 true).2.2.2
     staffU plainU (by decide)⟩

/-- C4: for distinct sender and recipient, the push outcome never affects
the persisted write: the failing transport really errors, yet the result
state equals the successful-push state and the row is appended either
way. -/
theorem c4_push_failure_swallowed (st : NotifState) (sender recipient : User)
    (ty msg : String) (post comment : Option Nat) (now : Int)
    (h : sender.id ≠ recipient.id) :
    ∀ ch : Bool, ∃ n,
      (create_notification st sender recipient ty msg post comment now
        ch).state.notifications = st.notifications ++ [n] ∧
      (create_notification st sender recipient ty msg post comment now
        ch).created = some n ∧
      (create_notification st sender recipient ty msg post comment now
        ch).state =
        (create_notification st sender recipient ty msg post comment now
          true).state ∧
      group_send false ("notifications_" ++ toString recipient.id) msg n.id
        ty = Except.error "channel layer unavailable" := by
  intro ch
  refine ⟨{ id := st.next_id, recipient := recipient, sender := sender,
            notification_type := ty, post := post, comment := comment,
            message := msg, is_read := false, created_at := now },
    ?_, ?_, ?_, rfl⟩ <;> simp [create_notification, h]

/-- C4 witness: with the transport down (`channel_ok = false`) the row is
still persisted and the state matches the successful-push state. -/
theorem c4_witness :
    staffU.id ≠ plainU.id ∧
    ∃ n, (create_notification st0 staffU plainU "follow" "hi" none none 7
        false).state.notifications = st0.notifications ++ [n] ∧
      (create_notification st0 staffU plainU "follow" "hi" none none 7
        false).created = some n ∧
      (create_notification st0 staffU plainU "follow" "hi" none none 7
        false).state =
        (create_notification st0 staffU plainU "follow" "hi" none none 7
          true).state ∧
      group_send false ("notifications_" ++ toString plainU.id) "hi" n.id
        "follow" = Except.error "channel layer unavailable" :=
  ⟨by decide,
   c4_push_failure_swallowed st0 staffU plainU "follow" "hi" none none 7
     (by decide) false⟩

/-- The soft-deleted version of `postByStaff` produced by the moderated
delete with reason "duplicate" at time 100. -/
def postByStaffDeleted : Post :=
  { postByStaff with
    is_active := false
    deleted_at := some 100
    deleted_by := some staffU
    delete_reason := "duplicate" }

/-- C1 counterexample: a staff actor moderated-deleting their own post.
The delete fields are set, but because `create_notification` suppresses
self-notifications the author receives zero notifications, not exactly
one. -/
theorem c1_counterexample :
    admin_delete_post st0 postByStaff staffU "duplicate" 100 true =
      ViewResult.ok (postByStaffDeleted,
        { state := st0, created := none, pushed := false }) ∧
    postByStaff.author = staffU ∧ staffU.is_staff = true ∧
    st0.notifications.length = 0 := by
  refine ⟨?_, rfl, rfl, rfl⟩
  decide

/-- C1 amended: moderated delete with a staff actor and a valid reason
(non-empty, at most 500 characters, no surrounding whitespace) sets
`is_active = false`, `deleted_at = now`, `deleted_by = actor` and
`delete_reason = reason`; when the actor is not the post's author, the
author receives exactly one Notification whose message contains the
literal reason text, but when the actor is the author no notification is
created. -/
theorem c1_moderated_delete (st : NotifState) (post : Post) (actor : User)
    (reason : String) (now : Int) (ch : Bool)
    (hstaff : actor.is_staff = true) (htrim : pyStrip reason = reason)
    (hne : reason ≠ "") (hlen : reason.length ≤ 500) :
    ∃ post' r,
      admin_delete_post st post actor reason now ch =
        ViewResult.ok (post', r) ∧
      post'.is_active = false ∧ post'.deleted_at = some now ∧
      post'.deleted_by = some actor ∧ post'.delete_reason = reason ∧
      (actor.id ≠ post.author.id →
        ∃ n, r.state.notifications = st.notifications ++ [n] ∧
          r.created = some n ∧ n.recipient = post.author ∧
          ∃ a b, n.message = a ++ reason ++ b) ∧
      (actor.id = post.author.id → r.state = st ∧ r.created = none) := by
  have hclean : DeletePostForm.clean reason = Except.ok reason := by
    unfold DeletePostForm.clean
    rw [htrim]
    simp [hne, Nat.not_lt.mpr hlen]
  have hrun : admin_delete_post st post actor reason now ch =
      ViewResult.ok
        ({ post with
            is_active := false
            deleted_at := some now
            deleted_by := some actor
            delete_reason := reason },
          create_notification st actor post.author "comment"
            ("您的帖子 \"" ++ post.title ++ "\" 已被管理员删除，原因：" ++ reason)
            (some post.id) none now ch) := by
    unfold admin_delete_post
    rw [hclean, hstaff]
    rfl
  refine ⟨_, _, hrun, rfl, rfl, rfl, rfl, ?_, ?_⟩
  · intro hne2
    refine ⟨{ id := st.next_id, recipient := post.author, sender := actor,
              notification_type := "comment", post := some post.id,
              comment := none,
              message := "您的帖子 \"" ++ post.title ++ "\" 已被管理员删除，原因：" ++ reason,
              is_read := false, created_at := now }, ?_, ?_, rfl, ?_⟩
    · simp [create_notification, hne2]
    · simp [create_notification, hne2]
    · exact ⟨"您的帖子 \"" ++ post.title ++ "\" 已被管理员删除，原因：", "",
        by simp⟩
  · intro heq
    constructor <;> simp [create_notification, heq]

/-- C1 witness: concrete staff actor deleting another user's post with
reason "duplicate". -/
theorem c1_witness :
    staffU.is_staff = true ∧ pyStrip "duplicate" = "duplicate" ∧
    "duplicate" ≠ "" ∧ "duplicate".length ≤ 500 ∧
    ∃ post' r,
      admin_delete_post st0 postByPlain staffU "duplicate" 50 true =
        ViewResult.ok (post', r) ∧
      post'.is_active = false ∧ post'.deleted_at = some 50 ∧
      post'.deleted_by = some staffU ∧ post'.delete_reason = "duplicate" ∧
      (staffU.id ≠ postByPlain.author.id →
        ∃ n, r.state.notifications = st0.notifications ++ [n] ∧
          r.created = some n ∧ n.recipient = postByPlain.author ∧
          ∃ a b, n.message = a ++ "duplicate" ++ b) ∧
      (staffU.id = postByPlain.author.id → r.state = st0 ∧ r.created = none) :=
  ⟨rfl, by decide, by decide, by decide,
   c1_moderated_delete st0 postByPlain staffU "duplicate" 50 true rfl
     (by decide) (by decide) (by decide)⟩

/-- C5 counterexample: self-service delete of a Comment past the 5-minute
window. At `created_at + 301` seconds the window predicate is false, yet
`comment_delete` performs no window check at all: the author's delete
succeeds and the record is removed, instead of failing with a
window-expired error. -/
theorem c5_counterexample :
    can_delete_within_time_limit (commentByPlain.created_at + 301)
      commentByPlain.created_at 5 = false ∧
    comment_delete [commentByPlain] commentByPlain plainU =
      (DeleteOutcome.deleted, []) := by decide

/-- C5 amended: the 5-minute self-delete window applies to Posts only.
A Post self-delete (POST request) succeeds exactly when the actor is the
author and `now - created_at ≤ 5` minutes, and at the window boundary plus
one second it fails with the window-expired message, leaving the table
unchanged; a Comment self-delete succeeds whenever the actor is the
author, with no time restriction, hard-removing the record. -/
theorem c5_delete_window (db : List Post) (post : Post) (actor : User)
    (now : Int) (cdb : List Comment) (c : Comment) (cactor : User) :
    ((post_delete db post actor now true).1 = DeleteOutcome.deleted ↔
      post.author.id = actor.id ∧ now - post.created_at ≤ 300) ∧
    (post.author.id = actor.id →
      post_delete db post actor (post.created_at + 301) true =
        (DeleteOutcome.window_expired "帖子发布超过5分钟，无法删除", db)) ∧
    ((comment_delete cdb c cactor).1 = DeleteOutcome.deleted ↔
      c.author.id = cactor.id) ∧
    (c.author.id = cactor.id →
      (comment_delete cdb c cactor).2 =
        cdb.filter (fun x => x.id ≠ c.id)) := by
  refine ⟨?_, ?_, ?_, ?_⟩
  · unfold post_delete can_delete_within_time_limit
    by_cases h1 : post.author.id = actor.id <;>
      by_cases h2 : now - post.created_at ≤ 300 <;> simp_all
  · intro h1
    unfold post_delete can_delete_within_time_limit
    simp [h1]
  · unfold comment_delete
    by_cases h1 : c.author.id = cactor.id <;> simp_all
  · intro h1
    unfold comment_delete
    simp [h1]

/-- C5 witness: the author's post-delete attempt at `created_at + 301`
seconds is rejected with the window message and the table kept; the
author's comment-delete removes the row. -/
theorem c5_witness :
    postByPlain.author.id = plainU.id ∧
    post_delete [postByPlain] postByPlain plainU
        (postByPlain.created_at + 301) true =
      (DeleteOutcome.window_expired "帖子发布超过5分钟，无法删除",
        [postByPlain]) ∧
    commentByPlain.author.id = plainU.id ∧
    (comment_delete [commentByPlain] commentByPlain plainU).2 =
      List.filter (fun x => x.id ≠ commentByPlain.id) [commentByPlain] :=
  ⟨rfl,
   (c5_delete_window [postByPlain] postByPlain plainU 0 [commentByPlain]
     commentByPlain plainU).2.1 rfl,
   rfl,
   (c5_delete_window [postByPlain] postByPlain plainU 0 [commentByPlain]
     commentByPlain plainU).2.2.2 rfl⟩

/-- A value in the duration choice list is a valid `contains` hit. -/
theorem duration_contains_true {d : String}
    (h : d ∈ BanUserForm.duration_choices) :
    BanUserForm.duration_choices.contains d = true := by
  simp [List.contains_iff_exists_mem_beq]
  exact h

/-- A value outside the duration choice list fails `contains`. -/
theorem duration_contains_false {d : String}
    (h : ¬ d ∈ BanUserForm.duration_choices) :
    BanUserForm.duration_choices.contains d = false := by
  simp [List.contains_iff_exists_mem_beq]
  exact h

/-- The empty submission is not one of the duration choices. -/
theorem duration_ne_empty {d : String}
    (h : d ∈ BanUserForm.duration_choices) : d ≠ "" := by
  intro habs
  rw [habs] at h
  simp [BanUserForm.duration_choices] at h

/-- C6: ban operation by a staff actor with a valid reason. For a
temporary ban the request is rejected with a validation error exactly when
the duration is absent (empty submission) or outside {1, 3, 7, 30, 90};
on success `ban_expires_at = now + duration_days` (in seconds) and the
ban bookkeeping fields are set. For a permanent ban `ban_expires_at` is
left null and the same fields are set. -/
theorem c6_ban_validation (st : NotifState) (profile : UserProfile)
    (actor : User) (ban_duration reason : String) (now : Int) (ch : Bool)
    (hstaff : actor.is_staff = true) (htrim : pyStrip reason = reason)
    (hne : reason ≠ "") (hlen : reason.length ≤ 500) :
    ((∃ e, admin_ban_user st profile actor "temporary" ban_duration reason
        now ch = ViewResult.invalid e) ↔
      ¬ ban_duration ∈ BanUserForm.duration_choices) ∧
    (ban_duration ∈ BanUserForm.duration_choices →
      ∃ p r, admin_ban_user st profile actor "temporary" ban_duration
          reason now ch = ViewResult.ok (p, r) ∧
        p.ban_expires_at =
          some (now + ((ban_duration.toNat?.getD 0 : Nat) : Int) * 86400) ∧
        p.is_banned = true ∧ p.banned_at = some now ∧
        p.banned_by = some actor ∧ p.ban_reason = reason) ∧
    (ban_duration = "" ∨ ban_duration ∈ BanUserForm.duration_choices →
      ∃ p r, admin_ban_user st profile actor "permanent" ban_duration
          reason now ch = ViewResult.ok (p, r) ∧
        p.ban_expires_at = none ∧ p.is_banned = true ∧
        p.banned_at = some now ∧ p.banned_by = some actor ∧
        p.ban_reason = reason) := by
  refine ⟨⟨?_, ?_⟩, ?_, ?_⟩
  · rintro ⟨e, he⟩ hmem
    have hne2 := duration_ne_empty hmem
    have hval : BanUserForm.validate "temporary" ban_duration reason =
        Except.ok { ban_type := "temporary", ban_duration := ban_duration,
                    ban_reason := reason } := by
      unfold BanUserForm.validate
      rw [htrim]
      simp [hne2, hne, Nat.not_lt.mpr hlen, hmem]
    unfold admin_ban_user at he
    rw [hstaff, hval] at he
    simp at he
  · intro hmem
    by_cases hemp : ban_duration = ""
    · subst hemp
      refine ⟨"临时封禁必须选择封禁时长", ?_⟩
      have hval : BanUserForm.validate "temporary" "" reason =
          Except.error "临时封禁必须选择封禁时长" := by
        unfold BanUserForm.validate
        rw [htrim]
        simp [hne, Nat.not_lt.mpr hlen]
      unfold admin_ban_user
      rw [hstaff, hval]
      rfl
    · refine ⟨"ban_duration: 请选择一个有效的选项", ?_⟩
      have hval : BanUserForm.validate "temporary" ban_duration reason =
          Except.error "ban_duration: 请选择一个有效的选项" := by
        unfold BanUserForm.validate
        simp [hemp, hmem]
      unfold admin_ban_user
      rw [hstaff, hval]
      rfl
  · intro hmem
    have hne2 := duration_ne_empty hmem
    have hval : BanUserForm.validate "temporary" ban_duration reason =
        Except.ok { ban_type := "temporary", ban_duration := ban_duration,
                    ban_reason := reason } := by
      unfold BanUserForm.validate
      rw [htrim]
      simp [hne2, hne, Nat.not_lt.mpr hlen, hmem]
    refine ⟨{ profile with
        is_banned := true
        banned_at := some now
        banned_by := some actor
        ban_reason := reason
        ban_expires_at := BanUserForm.get_ban_expires_at
          { ban_type := "temporary", ban_duration := ban_duration,
            ban_reason := reason } now },
      create_notification st actor profile.user "comment"
        ("您的账号已被" ++ "temporary" ++
          (if ban_duration ≠ "" then "，时长：" ++ ban_duration ++ "天" else "") ++
          "，原因：" ++ reason) none none now ch,
      ?_, ?_, rfl, rfl, rfl, rfl⟩
    · unfold admin_ban_user
      rw [hstaff, hval]
      rfl
    · show BanUserForm.get_ban_expires_at
        { ban_type := "temporary", ban_duration := ban_duration,
          ban_reason := reason } now = _
      unfold BanUserForm.get_ban_expires_at
      simp [hne2]
  · intro hmem
    have hval : BanUserForm.validate "permanent" ban_duration reason =
        Except.ok { ban_type := "permanent", ban_duration := ban_duration,
                    ban_reason := reason } := by
      unfold BanUserForm.validate
      rw [htrim]
      rcases hmem with hemp | hmem2
      · simp [hemp, hne, Nat.not_lt.mpr hlen]
      · simp [hne, Nat.not_lt.mpr hlen, hmem2]
    refine ⟨{ profile with
        is_banned := true
        banned_at := some now
        banned_by := some actor
        ban_reason := reason
        ban_expires_at := BanUserForm.get_ban_expires_at
          { ban_type := "permanent", ban_duration := ban_duration,
            ban_reason := reason } now },
      create_notification st actor profile.user "comment"
        ("您的账号已被" ++ "permanent" ++
          (if ban_duration ≠ "" then "，时长：" ++ ban_duration ++ "天" else "") ++
          "，原因：" ++ reason) none none now ch,
      ?_, ?_, rfl, rfl, rfl, rfl⟩
    · unfold admin_ban_user
      rw [hstaff, hval]
      rfl
    · show BanUserForm.get_ban_expires_at
        { ban_type := "permanent", ban_duration := ban_duration,
          ban_reason := reason } now = _
      unfold BanUserForm.get_ban_expires_at
      simp

/-- A profile with no ban history, for witnesses. -/
def plainProfile : UserProfile := { user := plainU }

/-- C6 witness: a staff 7-day temporary ban succeeds with expiry
`now + 7 days`, a permanent ban leaves expiry null, and duration "5"
(outside the choice set) is rejected. -/
theorem c6_witness :
    staffU.is_staff = true ∧ pyStrip "spam" = "spam" ∧
    ("7" : String) ∈ BanUserForm.duration_choices ∧
    (∃ p r, admin_ban_user st0 plainProfile staffU "temporary" "7" "spam" 0
        true = ViewResult.ok (p, r) ∧
      p.ban_expires_at =
        some (0 + ((("7" : String).toNat?.getD 0 : Nat) : Int) * 86400) ∧
      p.is_banned = true ∧ p.banned_at = some 0 ∧
      p.banned_by = some staffU ∧ p.ban_reason = "spam") ∧
    (∃ p r, admin_ban_user st0 plainProfile staffU "permanent" "" "spam" 0
        true = ViewResult.ok (p, r) ∧
      p.ban_expires_at = none ∧ p.is_banned = true ∧ p.banned_at = some 0 ∧
      p.banned_by = some staffU ∧ p.ban_reason = "spam") ∧
    (∃ e, admin_ban_user st0 plainProfile staffU "temporary" "5" "spam" 0
        true = ViewResult.invalid e) :=
  ⟨rfl, by decide, by decide,
   (c6_ban_validation st0 plainProfile staffU "7" "spam" 0 true rfl
     (by decide) (by decide) (by decide)).2.1 (by decide),
   (c6_ban_validation st0 plainProfile staffU "" "spam" 0 true rfl
     (by decide) (by decide) (by decide)).2.2 (Or.inl rfl),
   (c6_ban_validation st0 plainProfile staffU "5" "spam" 0 true rfl
     (by decide) (by decide) (by decide)).1.mpr (by decide)⟩

/-- `pExpired` after the unban view ran over it. -/
def pExpiredUnbanned : UserProfile :=
  { pExpired with
    is_banned := false
    ban_expires_at := none
    ban_reason := "" }

/-- C7 counterexample: unbanning a previously banned profile clears
`is_banned`, `ban_expires_at` and `ban_reason`, but leaves `banned_at`
(and `banned_by`) set, so the claimed invariant "is_banned = false implies
banned_at is unset" fails on the resulting row. -/
theorem c7_counterexample :
    admin_unban_user st0 pExpired staffU "" 1000 true =
      ViewResult.ok (pExpiredUnbanned,
        create_notification st0 staffU plainU "comment"
          ("您的账号已被解封" ++ "") none none 1000 true) ∧
    pExpiredUnbanned.is_banned = false ∧
    pExpiredUnbanned.banned_at = some 0 ∧
    ¬ pExpiredUnbanned.banned_at = none := by
  refine ⟨?_, rfl, rfl, by decide⟩
  decide

/-- C7 amended: after unban by a staff actor, `is_banned` is false (and
the derived ban-status read is false at every time), `ban_expires_at` is
null and `ban_reason` empty, while `banned_at` and `banned_by` keep their
prior values — the all-fields-cleared invariant holds only for
`ban_expires_at` and `ban_reason`. -/
theorem c7_unban_clears (st : NotifState) (profile : UserProfile)
    (actor : User) (reason : String) (now : Int) (ch : Bool)
    (hstaff : actor.is_staff = true)
    (hlen : (pyStrip reason).length ≤ 500) :
    ∃ p r, admin_unban_user st profile actor reason now ch =
        ViewResult.ok (p, r) ∧
      p.is_banned = false ∧ p.ban_expires_at = none ∧ p.ban_reason = "" ∧
      p.banned_at = profile.banned_at ∧ p.banned_by = profile.banned_by ∧
      (∀ t, p.is_currently_banned t = false) := by
  have hval : UnbanUserForm.validate reason = Except.ok (pyStrip reason) := by
    unfold UnbanUserForm.validate
    simp [Nat.not_lt.mpr hlen]
  refine ⟨{ profile with
      is_banned := false
      ban_expires_at := none
      ban_reason := "" },
    create_notification st actor profile.user "comment"
      ("您的账号已被解封" ++
        (if pyStrip reason ≠ "" then "，原因：" ++ pyStrip reason else ""))
      none none now ch,
    ?_, rfl, rfl, rfl, rfl, rfl, ?_⟩
  · unfold admin_unban_user
    rw [hstaff, hval]
    rfl
  · intro t
    simp [UserProfile.is_currently_banned]

/-- C7 witness: concrete unban of the banned profile `pPerm`. -/
theorem c7_witness :
    staffU.is_staff = true ∧ (pyStrip "appealed").length ≤ 500 ∧
    ∃ p r, admin_unban_user st0 pPerm staffU "appealed" 5 true =
        ViewResult.ok (p, r) ∧
      p.is_banned = false ∧ p.ban_expires_at = none ∧ p.ban_reason = "" ∧
      p.banned_at = pPerm.banned_at ∧ p.banned_by = pPerm.banned_by ∧
      (∀ t, p.is_currently_banned t = false) :=
  ⟨rfl, by decide,
   c7_unban_clears st0 pPerm staffU "appealed" 5 true rfl (by decide)⟩

/-- C8: the search indexer's queryset filters on `status='approved'`, but
the Post model declares no `status` field, so the ORM lookup fails with a
FieldError on any table — it never computes the is_active filter the
search contract requires (shown on a table holding one active post). -/
theorem c8_index_queryset_field_error :
    PostIndex.index_queryset [postByPlain] =
      Except.error "Cannot resolve keyword status into field" ∧
    postByPlain.is_active = true ∧
    spec_index_queryset [postByPlain] = Except.ok [postByPlain] ∧
    Post.fieldNames.contains "status" = false ∧
    Post.fieldNames.contains "is_active" = true := by
  refine ⟨?_, rfl, rfl, by decide, by decide⟩
  rfl

/-- A (user, post) pair has no Like rows iff no row matches the key. -/
theorem likeCount_eq_zero {likes : List Like} {uid pid : Nat} :
    likeCount likes uid pid = 0 ↔
      ∀ l ∈ likes, l.hasKey uid pid = false := by
  simp [likeCount, List.length_eq_zero, List.filter_eq_nil_iff]

/-- `find?` misses when no row matches the key. -/
theorem find_hasKey_none {likes : List Like} {uid pid : Nat}
    (h : ∀ l ∈ likes, l.hasKey uid pid = false) :
    likes.find? (fun l => l.hasKey uid pid) = none := by
  rw [List.find?_eq_none]
  intro l hl
  simp [h l hl]

/-- `find?` over a keyless list extended with one matching row hits it. -/
theorem find_hasKey_append {likes : List Like} {uid pid : Nat}
    (h : ∀ l ∈ likes, l.hasKey uid pid = false) (x : Like)
    (hx : x.hasKey uid pid = true) :
    (likes ++ [x]).find? (fun l => l.hasKey uid pid) = some x := by
  induction likes with
  | nil => simp [List.find?, hx]
  | cons a as ih =>
      have ha := h a (List.mem_cons_self a as)
      simp only [List.cons_append, List.find?_cons, ha]
      exact ih (fun l hl => h l (List.mem_cons_of_mem a hl))

/-- Deleting the freshly created row from a keyless list restores it. -/
theorem removeFirstLike_append {likes : List Like} {uid pid : Nat}
    (h : ∀ l ∈ likes, l.hasKey uid pid = false) (x : Like)
    (hx : x.hasKey uid pid = true) :
    removeFirstLike (likes ++ [x]) uid pid = likes := by
  induction likes with
  | nil => simp [removeFirstLike, hx]
  | cons a as ih =>
      have ha := h a (List.mem_cons_self a as)
      simp only [List.cons_append, removeFirstLike, ha, Bool.false_eq_true,
        if_false]
      exact congrArg (a :: ·) (ih (fun l hl => h l (List.mem_cons_of_mem a hl)))

/-- Row deletion never increases the per-key row count. -/
theorem likeCount_removeFirst_le (likes : List Like) (uid pid : Nat) :
    likeCount (removeFirstLike likes uid pid) uid pid ≤
      likeCount likes uid pid := by
  induction likes with
  | nil => simp [removeFirstLike]
  | cons a as ih =>
      by_cases ha : a.hasKey uid pid = true
      · simp [removeFirstLike, ha, likeCount, List.filter_cons]
      · have ha2 : a.hasKey uid pid = false := by
          revert ha
          cases a.hasKey uid pid <;> simp
        simp only [removeFirstLike, ha2, Bool.false_eq_true, if_false]
        simpa [likeCount, List.filter_cons, ha2] using ih

/-- Per-key row counts add over list append. -/
theorem likeCount_append (l1 l2 : List Like) (uid pid : Nat) :
    likeCount (l1 ++ l2) uid pid =
      likeCount l1 uid pid + likeCount l2 uid pid := by
  simp [likeCount, List.filter_append]

/-- C9: the like toggle is an involution — starting unliked, toggling
twice restores the original Like table, the intermediate state has exactly
one row for the (user, post) pair — and the toggle preserves the
at-most-one-row-per-pair bound everywhere. -/
theorem c9_like_toggle (likes : List Like) (st : NotifState) (actor : User)
    (post : Post) (now now2 : Int) (ch : Bool)
    (h0 : likeCount likes actor.id post.id = 0) :
    (like_post (like_post likes st actor post now ch).1
      (like_post likes st actor post now ch).2 actor post now2 ch).1 =
      likes ∧
    likeCount (like_post likes st actor post now ch).1 actor.id post.id
      = 1 ∧
    (∀ (l0 : List Like) (st2 : NotifState) (now3 : Int) (c2 : Bool),
      likeCount l0 actor.id post.id ≤ 1 →
      likeCount (like_post l0 st2 actor post now3 c2).1 actor.id post.id
        ≤ 1) := by
  have hnm : ∀ l ∈ likes, l.hasKey actor.id post.id = false :=
    likeCount_eq_zero.mp h0
  have hkey : (Like.mk actor.id post.id now).hasKey actor.id post.id = true := by
    simp [Like.hasKey]
  have hstep1 : (like_post likes st actor post now ch).1 =
      likes ++ [Like.mk actor.id post.id now] := by
    unfold like_post
    rw [find_hasKey_none hnm]
  refine ⟨?_, ?_, ?_⟩
  · rw [hstep1]
    unfold like_post
    rw [find_hasKey_append hnm _ hkey]
    exact removeFirstLike_append hnm _ hkey
  · rw [hstep1, likeCount_append, h0]
    simp [likeCount, List.filter_cons, hkey]
  · intro l0 st2 now3 c2 hle
    unfold like_post
    cases hf : l0.find? (fun l => l.hasKey actor.id post.id) with
    | some x =>
        exact Nat.le_trans (likeCount_removeFirst_le l0 actor.id post.id) hle
    | none =>
        have hz : likeCount l0 actor.id post.id = 0 := by
          rw [likeCount_eq_zero]
          intro l hl
          have := List.find?_eq_none.mp hf l hl
          revert this
          cases l.hasKey actor.id post.id <;> simp
        rw [likeCount_append, hz]
        simp [likeCount, List.filter_cons, Like.hasKey]

/-- C9 witness: concrete double toggle on an empty Like table. -/
theorem c9_witness :
    likeCount [] staffU.id postByPlain.id = 0 ∧
    (like_post (like_post [] st0 staffU postByPlain 3 true).1
      (like_post [] st0 staffU postByPlain 3 true).2 staffU postByPlain 9
      true).1 = [] ∧
    likeCount (like_post [] st0 staffU postByPlain 3 true).1 staffU.id
      postByPlain.id = 1 :=
  ⟨rfl,
   (c9_like_toggle [] st0 staffU postByPlain 3 9 true rfl).1,
   (c9_like_toggle [] st0 staffU postByPlain 3 9 true rfl).2.1⟩

/-- `create_notification` preserves the declared-type invariant when the
call site passes a declared type. -/
theorem notifTypesOk_create (st : NotifState) (h : notifTypesOk st = true)
    (s r : User) (ty msg : String) (post comment : Option Nat) (now : Int)
    (ch : Bool)
    (hty : Notification.NOTIFICATION_TYPES.contains ty = true) :
    notifTypesOk
      (create_notification st s r ty msg post comment now ch).state
      = true := by
  by_cases hid : s.id = r.id
  · simp only [create_notification, hid, ne_eq, not_true_eq_false,
      if_neg, ite_false]
    simpa using h
  · unfold notifTypesOk at h ⊢
    simp [create_notification, hid, List.all_append]
    constructor
    · intro x hx
      have hx2 := List.all_eq_true.mp h x hx
      simpa using hx2
    · simpa using hty

/-- The row created by `create_notification` carries the type passed by
the call site. -/
theorem create_created_type (st : NotifState) (s r : User)
    (ty msg : String) (post comment : Option Nat) (now : Int) (ch : Bool)
    (n : Notification)
    (h : (create_notification st s r ty msg post comment now ch).created
      = some n) : n.notification_type = ty := by
  by_cases hid : s.id = r.id
  · simp [create_notification, hid] at h
  · simp [create_notification, hid] at h
    simp [← h]

/-- C10: starting from a table in which every notification's type is one
of the declared choices {comment, like, follow}, every operation of this
core preserves that: likes push "like", follows push "follow", comments
push "comment", and all four moderation operations (post/comment delete,
ban, unban) create their notification with type "comment" — no dedicated
moderation type exists. -/
theorem c10_notification_types (st : NotifState)
    (h : notifTypesOk st = true) :
    (∀ likes actor post now ch,
      notifTypesOk (like_post likes st actor post now ch).2 = true) ∧
    (∀ follows actor target now ch,
      notifTypesOk (follow_user follows st actor target now ch).2 = true) ∧
    (∀ comments post actor content cid now ch,
      notifTypesOk
        (post_detail_add_comment comments st post actor content cid now
          ch).2 = true) ∧
    (∀ post actor reason now ch p r,
      admin_delete_post st post actor reason now ch =
        ViewResult.ok (p, r) →
      notifTypesOk r.state = true ∧
        ∀ n, r.created = some n → n.notification_type = "comment") ∧
    (∀ c actor reason now ch c2 r,
      admin_delete_comment st c actor reason now ch =
        ViewResult.ok (c2, r) →
      notifTypesOk r.state = true ∧
        ∀ n, r.created = some n → n.notification_type = "comment") ∧
    (∀ profile actor bt bd br now ch p r,
      admin_ban_user st profile actor bt bd br now ch =
        ViewResult.ok (p, r) →
      notifTypesOk r.state = true ∧
        ∀ n, r.created = some n → n.notification_type = "comment") ∧
    (∀ profile actor reason now ch p r,
      admin_unban_user st profile actor reason now ch =
        ViewResult.ok (p, r) →
      notifTypesOk r.state = true ∧
        ∀ n, r.created = some n → n.notification_type = "comment") := by
  refine ⟨?_, ?_, ?_, ?_, ?_, ?_, ?_⟩
  · intro likes actor post now ch
    unfold like_post
    cases likes.find? (fun l => l.hasKey actor.id post.id) with
    | some x => exact h
    | none =>
        by_cases hid : post.author.id = actor.id
        · simp [hid]
          exact h
        · simp [hid]
          exact notifTypesOk_create st h _ _ _ _ _ _ _ _ rfl
  · intro follows actor target now ch
    unfold follow_user
    by_cases hid : actor.id = target.id
    · simp [hid]
      exact h
    · simp only [hid, ite_false, if_neg]
      cases follows.find? (fun f =>
          f.follower_id == actor.id && f.following_id == target.id) with
      | some x => exact h
      | none => exact notifTypesOk_create st h _ _ _ _ _ _ _ _ rfl
  · intro comments post actor content cid now ch
    unfold post_detail_add_comment
    by_cases hid : post.author.id = actor.id
    · simp [hid]
      exact h
    · simp [hid]
      exact notifTypesOk_create st h _ _ _ _ _ _ _ _ rfl
  · intro post actor reason now ch p r hrun
    unfold admin_delete_post at hrun
    split at hrun
    · exact absurd hrun (by simp)
    · split at hrun
      · exact absurd hrun (by simp)
      · simp only [ViewResult.ok.injEq, Prod.mk.injEq] at hrun
        rw [← hrun.2]
        exact ⟨notifTypesOk_create st h _ _ _ _ _ _ _ _ rfl,
          fun n hn => create_created_type _ _ _ _ _ _ _ _ _ n hn⟩
  · intro c actor reason now ch c2 r hrun
    unfold admin_delete_comment at hrun
    split at hrun
    · exact absurd hrun (by simp)
    · split at hrun
      · exact absurd hrun (by simp)
      · simp only [ViewResult.ok.injEq, Prod.mk.injEq] at hrun
        rw [← hrun.2]
        exact ⟨notifTypesOk_create st h _ _ _ _ _ _ _ _ rfl,
          fun n hn => create_created_type _ _ _ _ _ _ _ _ _ n hn⟩
  · intro profile actor bt bd br now ch p r hrun
    unfold admin_ban_user at hrun
    split at hrun
    · exact absurd hrun (by simp)
    · split at hrun
      · exact absurd hrun (by simp)
      · simp only [ViewResult.ok.injEq, Prod.mk.injEq] at hrun
        rw [← hrun.2]
        exact ⟨notifTypesOk_create st h _ _ _ _ _ _ _ _ rfl,
          fun n hn => create_created_type _ _ _ _ _ _ _ _ _ n hn⟩
  · intro profile actor reason now ch p r hrun
    unfold admin_unban_user at hrun
    split at hrun
    · exact absurd hrun (by simp)
    · split at hrun
      · exact absurd hrun (by simp)
      · simp only [ViewResult.ok.injEq, Prod.mk.injEq] at hrun
        rw [← hrun.2]
        exact ⟨notifTypesOk_create st h _ _ _ _ _ _ _ _ rfl,
          fun n hn => create_created_type _ _ _ _ _ _ _ _ _ n hn⟩

/-- C10 witness: from the empty table, a like toggle-on and a concrete
moderated post delete both leave every stored notification with a
declared type, and the moderation row is typed "comment". -/
theorem c10_witness :
    notifTypesOk st0 = true ∧
    notifTypesOk (like_post [] st0 staffU postByPlain 5 true).2 = true ∧
    ∃ p r, admin_delete_post st0 postByPlain staffU "duplicate" 9 true =
        ViewResult.ok (p, r) ∧
      notifTypesOk r.state = true ∧
      (∀ n, r.created = some n → n.notification_type = "comment") :=
  have hrun : admin_delete_post st0 postByPlain staffU "duplicate" 9 true =
      ViewResult.ok
        ({ postByPlain with
            is_active := false
            deleted_at := some 9
            deleted_by := some staffU
            delete_reason := "duplicate" },
          create_notification st0 staffU plainU "comment"
            ("您的帖子 \"" ++ "hello" ++ "\" 已被管理员删除，原因：" ++ "duplicate")
            (some 10) none 9 true) := by decide
  ⟨rfl, (c10_notification_types st0 rfl).1 [] staffU postByPlain 5 true,
   ⟨_, _, hrun,
    ((c10_notification_types st0 rfl).2.2.2.1 postByPlain staffU
      "duplicate" 9 true _ _ hrun)⟩⟩
